import Mathlib

/-!
Verification development for the BART `SelfAttention` module
(`src/transformers/modeling_bart.py`).

Modelling conventions:
* Tensors are shallow-embedded as dimension-tagged index functions over `ℝ`
  (floating point is abstracted to real arithmetic; "within floating
  tolerance" in the design document becomes exact real equality).
* Attention logits live in `XR = ℝ ∪ {-∞}`, so that `masked_fill(-inf)`
  and additive `-inf` bias masks are represented exactly; `exp(-∞) = 0`.
* Python `assert` failures and tensor-library exceptions become `Except Err`
  results; the module's dict-based incremental cache becomes an explicit
  `Past` map passed in and returned functionally.
* The module is modelled in evaluation mode (`training = False`), where
  `F.dropout` is the identity, matching the deterministic-mode setting of
  every property under study.
-/

open scoped Classical

namespace SmartTransformers

/-- Extended real values: a finite float value or `-inf`.  (`+inf`/`NaN`
never arise in the attention computation modelled here.) -/
inductive XR where
  | ninf
  | fin (x : ℝ)

/-- IEEE-style addition on `ℝ ∪ {-∞}`: anything plus `-inf` is `-inf`. -/
def XR.add : XR → XR → XR
  | .fin a, .fin b => .fin (a + b)
  | _, _ => .ninf

/-- `exp` extended with `exp(-∞) = 0`, as float softmax computes it. -/
noncomputable def XR.expx : XR → ℝ
  | .ninf => 0
  | .fin x => Real.exp x

/-- A rank-2 tensor: two dimension sizes and an index function. -/
@[ext]
structure Tensor2 (α : Type) where
  d0 : ℕ
  d1 : ℕ
  val : ℕ → ℕ → α

/-- A rank-3 tensor. -/
@[ext]
structure Tensor3 (α : Type) where
  d0 : ℕ
  d1 : ℕ
  d2 : ℕ
  val : ℕ → ℕ → ℕ → α

/-- A rank-4 tensor (used for the cache's `[bsz, heads, seq, head_dim]`
storage layout and the returned attention weights). -/
@[ext]
structure Tensor4 (α : Type) where
  d0 : ℕ
  d1 : ℕ
  d2 : ℕ
  d3 : ℕ
  val : ℕ → ℕ → ℕ → ℕ → α

/-- `torch.cat(_, dim=1)` on rank-3 tensors. -/
def cat1 {α : Type} (a b : Tensor3 α) : Tensor3 α :=
  ⟨a.d0, a.d1 + b.d1, a.d2,
    fun i j l => if j < a.d1 then a.val i j l else b.val i (j - a.d1) l⟩

/-- `torch.cat(_, dim=1)` on rank-2 tensors (key-padding masks). -/
def cat2 {α : Type} (a b : Tensor2 α) : Tensor2 α :=
  ⟨a.d0, a.d1 + b.d1,
    fun i j => if j < a.d1 then a.val i j else b.val i (j - a.d1)⟩

/-- `t.transpose(1, 2)` on a rank-3 tensor. -/
def transpose12 {α : Type} (t : Tensor3 α) : Tensor3 α :=
  ⟨t.d0, t.d2, t.d1, fun i j l => t.val i l j⟩

/-- `torch.bmm`: batched matrix multiplication along the last two axes. -/
noncomputable def bmm (a b : Tensor3 ℝ) : Tensor3 ℝ :=
  ⟨a.d0, a.d1, b.d2,
    fun i t s => ∑ d ∈ Finset.range a.d2, a.val i t d * b.val i d s⟩

/-- Elementwise scalar multiplication (`tensor * scalar`). -/
noncomputable def Tensor3.smul (t : Tensor3 ℝ) (c : ℝ) : Tensor3 ℝ :=
  ⟨t.d0, t.d1, t.d2, fun i j l => t.val i j l * c⟩

/-- Inject a finite-valued tensor into the extended reals. -/
def Tensor3.toXR (t : Tensor3 ℝ) : Tensor3 XR :=
  ⟨t.d0, t.d1, t.d2, fun i j l => XR.fin (t.val i j l)⟩

/-- `torch.zeros(a, b)`. -/
def zeros2 (a b : ℕ) : Tensor2 ℝ :=
  ⟨a, b, fun _ _ => 0⟩

/-- `t.view(bsz, num_heads, -1, head_dim)`: split the merged
`bsz*num_heads` leading axis of a rank-3 tensor. -/
def view4 {α : Type} (t : Tensor3 α) (bsz H : ℕ) : Tensor4 α :=
  ⟨bsz, H, t.d1, t.d2, fun b h s d => t.val (b * H + h) s d⟩

/-- `t.view(bsz * num_heads, -1, head_dim)`: merge the two leading axes of
a rank-4 cache tensor back into one.  (Call sites always pass
`bsz * num_heads` and `head_dim` matching the stored tensor's own dims.) -/
def view3of4 {α : Type} (t : Tensor4 α) : Tensor3 α :=
  ⟨t.d0 * t.d1, t.d2, t.d3, fun i s d => t.val (i / t.d1) (i % t.d1) s d⟩

/-- `attn_weights += attn_mask.unsqueeze(0)`: add a `[tgt, src]` additive
bias mask, broadcast over the `bsz*heads` axis. -/
def addAttnMask (t : Tensor3 XR) (m : Tensor2 XR) : Tensor3 XR :=
  ⟨t.d0, t.d1, t.d2, fun i q s => XR.add (t.val i q s) (m.val q s)⟩

/-- `masked_fill(key_padding_mask.unsqueeze(1).unsqueeze(2).to(bool), -inf)`
on the `[bsz, heads, tgt, src]` view: a nonzero mask entry marks padding. -/
noncomputable def maskedFill4 (t : Tensor4 XR) (m : Tensor2 ℝ) : Tensor4 XR :=
  ⟨t.d0, t.d1, t.d2, t.d3,
    fun b h q s => if m.val b s = 0 then t.val b h q s else XR.ninf⟩

/-- `F.softmax(_, dim=-1, dtype=float32)` over extended-real logits: a row
that is all `-∞` yields the junk value `0/0 = 0` (the design document makes
such rows a caller precondition, not a checked error). -/
noncomputable def softmax3 (t : Tensor3 XR) : Tensor3 ℝ :=
  ⟨t.d0, t.d1, t.d2,
    fun i q s =>
      XR.expx (t.val i q s) / ∑ m ∈ Finset.range t.d2, XR.expx (t.val i q m)⟩

/-- `F.dropout(t, p, training=False)` is the identity; the module is
modelled in evaluation (deterministic) mode. -/
noncomputable def dropoutEval (t : Tensor3 ℝ) (_p : ℝ) : Tensor3 ℝ := t

/-- A `torch.nn.Linear(inFeatures, outFeatures)` layer with its learned
weight matrix `weight[out][in]` and bias vector. -/
structure Linear where
  outFeatures : ℕ
  inFeatures : ℕ
  weight : ℕ → ℕ → ℝ
  bias : ℕ → ℝ

/-- Apply a linear layer along the last axis of a `[seq, batch, feat]`
tensor: `out[t][b][o] = Σ_i weight[o][i] * x[t][b][i] + bias[o]`. -/
noncomputable def Linear.apply (l : Linear) (t : Tensor3 ℝ) : Tensor3 ℝ :=
  ⟨t.d0, t.d1, l.outFeatures,
    fun a b o =>
      (∑ i ∈ Finset.range l.inFeatures, l.weight o i * t.val a b i) + l.bias o⟩

/-- Python exceptions surfaced by the module, as an error type. -/
inductive Err where
  | assertionError (msg : String)
  | indexError (msg : String)
  | runtimeError (msg : String)
deriving DecidableEq

/-- The key-padding-mask argument: PyTorch tensors are dynamically ranked,
so the argument is either a zero-dimensional (scalar) tensor or the
documented `[batch, src_len]` matrix. -/
inductive KPM where
  | scalar (x : ℝ)
  | mat (m : Tensor2 ℝ)

/-- One attention site's saved state: `prev_key` / `prev_value` stored as
`[bsz, num_heads, seq_len, head_dim]`, plus the accumulated padding mask. -/
structure SavedState where
  prev_key : Option (Tensor4 ℝ)
  prev_value : Option (Tensor4 ℝ)
  prev_key_padding_mask : Option KPM

/-- The empty saved state (`{}` in the Python dict model). -/
def SavedState.empty : SavedState := ⟨none, none, none⟩

/-- The per-layer cache dict `past : Dict[str, Dict[str, Optional[Tensor]]]`,
keyed by the attention-site string. -/
def Past := String → Option SavedState

/-- `past.get(attn_key, {})`. -/
def Past.get (p : Past) (k : String) : SavedState :=
  (p k).getD SavedState.empty

/-- `layer_cache[attn_key] = new_entry` (in `_update_layer_cache`). -/
def Past.set (p : Past) (k : String) (ss : SavedState) : Past :=
  fun s => if s = k then some ss else p s

/-- A cache dict with no entries. -/
def Past.empty : Past := fun _ => none

/-- The `SelfAttention` module's constructed state: configuration plus the
four learned projection layers (built in `__init__`). -/
structure SelfAttention where
  embed_dim : ℕ
  kdim : ℕ
  vdim : ℕ
  num_heads : ℕ
  dropout : ℝ
  head_dim : ℕ
  scaling : ℝ
  encoder_decoder_attention : Bool
  k_proj : Linear
  v_proj : Linear
  q_proj : Linear
  out_proj : Linear

/-- `self.attn_key = "{}_attn".format(...)`. -/
def SelfAttention.attn_key (cfg : SelfAttention) : String :=
  if cfg.encoder_decoder_attention then "encoder_decoder_attn" else "self_attn"

/-- `SelfAttention.__init__`.  The learned weight/bias functions are passed
in (they are randomly initialised parameters in the source); each
`nn.Linear(in, out)` is built with the dimensions the source gives it.
A failed `assert` surfaces as an `Err.assertionError`. -/
noncomputable def SelfAttention.init (embed_dim num_heads : ℕ)
    (kdimArg vdimArg : Option ℕ) (dropout : ℝ)
    (kW : ℕ → ℕ → ℝ) (kB : ℕ → ℝ) (vW : ℕ → ℕ → ℝ) (vB : ℕ → ℝ)
    (qW : ℕ → ℕ → ℝ) (qB : ℕ → ℝ) (oW : ℕ → ℕ → ℝ) (oB : ℕ → ℝ)
    (encoder_decoder_attention : Bool) : Except Err SelfAttention :=
  let kdim := kdimArg.getD embed_dim
  let vdim := vdimArg.getD embed_dim
  let head_dim := embed_dim / num_heads
  if head_dim * num_heads ≠ embed_dim then
    .error (.assertionError "embed_dim must be divisible by num_heads")
  else
    let qkv_same_dim : Bool := kdim = embed_dim ∧ vdim = embed_dim
    if ¬(encoder_decoder_attention = true ∨ qkv_same_dim = true) then
      .error (.assertionError
        "Self-attention requires query, key and value to be of the same size")
    else
      .ok
        { embed_dim := embed_dim
          kdim := kdim
          vdim := vdim
          num_heads := num_heads
          dropout := dropout
          head_dim := head_dim
          scaling := (head_dim : ℝ) ^ (-(1 : ℝ) / 2)
          encoder_decoder_attention := encoder_decoder_attention
          k_proj := ⟨embed_dim, kdim, kW, kB⟩
          v_proj := ⟨embed_dim, vdim, vW, vB⟩
          q_proj := ⟨embed_dim, embed_dim, qW, qB⟩
          out_proj := ⟨embed_dim, embed_dim, oW, oB⟩ }

/-- `self._shape(tensor, dim_0, bsz)`:
`tensor.contiguous().view(dim_0, bsz * num_heads, head_dim).transpose(0, 1)`,
taking a `[seq, bsz, embed]` tensor to `[bsz*num_heads, seq, head_dim]`. -/
def SelfAttention.shapeT (cfg : SelfAttention) (t : Tensor3 ℝ) (bsz : ℕ) :
    Tensor3 ℝ :=
  ⟨bsz * cfg.num_heads, t.d0, cfg.head_dim,
    fun i s d =>
      t.val s (i / cfg.num_heads) (i % cfg.num_heads * cfg.head_dim + d)⟩

/-- The inverse reshape at the end of `forward`:
`attn_output.transpose(0, 1).contiguous().view(tgt_len, bsz, embed_dim)`. -/
def SelfAttention.unshapeT (cfg : SelfAttention) (t : Tensor3 ℝ)
    (tgt_len bsz embed_dim : ℕ) : Tensor3 ℝ :=
  ⟨tgt_len, bsz, embed_dim,
    fun a b e =>
      t.val (b * cfg.num_heads + e / cfg.head_dim) a (e % cfg.head_dim)⟩

/-- `SelfAttention._cat_prev_key_padding_mask`, with the source's branch
order.  `torch.cat` and `.size(1)` on a zero-dimensional mask raise
(RuntimeError / IndexError respectively); `.float()` is the identity in
the real-valued model. -/
def SelfAttention.catPrevKeyPaddingMask (key_padding_mask : Option KPM)
    (prev_key_padding_mask : Option KPM) (batch_size : ℕ) (src_len : ℕ)
    (static_kv : Bool) : Except Err (Option KPM) :=
  match prev_key_padding_mask, static_kv with
  | some prev, true => .ok (some prev)
  | prevOpt, _ =>
    match prevOpt, key_padding_mask with
    | some (.mat a), some (.mat b) => .ok (some (.mat (cat2 a b)))
    | some _, some _ =>
      .error (.runtimeError "zero-dimensional tensor cannot be concatenated")
    | some (.mat a), none =>
      .ok (some (.mat (cat2 a (zeros2 batch_size (src_len - a.d1)))))
    | some (.scalar _), none =>
      .error (.indexError "Dimension out of range")
    | none, some (.mat b) =>
      .ok (some (.mat (cat2 (zeros2 batch_size (src_len - b.d1)) b)))
    | none, some (.scalar _) =>
      .error (.indexError "Dimension out of range")
    | none, none => .ok none

/-- `SelfAttention._use_and_update_saved_state`: merge the new `k`/`v`
with the cached ones (or reuse the cached ones when `static_kv`), extend
the padding mask, and write the new entry back into the cache.  Returns
the effective `k`, `v`, padding mask and the updated cache. -/
def SelfAttention.useAndUpdateSavedState (cfg : SelfAttention)
    (k v : Option (Tensor3 ℝ)) (saved_state : SavedState)
    (key_padding_mask : Option KPM) (incremental_state : Past)
    (static_kv : Bool) (bsz : ℕ) :
    Except Err (Tensor3 ℝ × Tensor3 ℝ × Option KPM × Past) := do
  let kNew : Option (Tensor3 ℝ) ←
    match saved_state.prev_key with
    | none => pure k
    | some pk =>
      let prev_key := view3of4 pk
      if static_kv then pure (some prev_key)
      else
        match k with
        | none => throw (.assertionError "k is not None")
        | some kk => pure (some (cat1 prev_key kk))
  let vNew : Option (Tensor3 ℝ) ←
    match saved_state.prev_value with
    | none => pure v
    | some pv =>
      let prev_value := view3of4 pv
      if static_kv then pure (some prev_value)
      else
        match v with
        | none => throw (.assertionError "v is not None")
        | some vv => pure (some (cat1 prev_value vv))
  match kNew, vNew with
  | some kk, some vv => do
    let kpmNew ← SelfAttention.catPrevKeyPaddingMask key_padding_mask
      saved_state.prev_key_padding_mask bsz kk.d1 static_kv
    let newEntry : SavedState :=
      ⟨some (view4 kk bsz cfg.num_heads), some (view4 vv bsz cfg.num_heads),
        kpmNew⟩
    pure (kk, vv, kpmNew, incremental_state.set cfg.attn_key newEntry)
  | _, _ => throw (.assertionError "k is not None and v is not None")

/-- `SelfAttention.forward` (evaluation mode).  Input shape
`[tgt_len, bsz, embed_dim]`; returns the attention output, the per-head
attention weights viewed as `[bsz, num_heads, tgt_len, src_len]`, and the
updated cache (the source mutates `past` in place; here the new cache is
returned).  Every Python `assert` is an `Err.assertionError` check, in
source order. -/
noncomputable def SelfAttention.forward (cfg : SelfAttention)
    (query : Tensor3 ℝ) (key value : Option (Tensor3 ℝ))
    (key_padding_mask : Option KPM) (past : Option Past)
    (_need_weights : Bool) (static_kv : Bool)
    (attn_mask : Option (Tensor2 XR)) :
    Except Err (Tensor3 ℝ × Tensor4 ℝ × Option Past) := do
  let tgt_len := query.d0
  let bsz := query.d1
  let embed_dim := query.d2
  if embed_dim ≠ cfg.embed_dim then
    throw (.assertionError "embed_dim == self.embed_dim")
  -- `assert list(query.size()) == [tgt_len, bsz, embed_dim]` is a tautology
  -- on the unpacked sizes and is omitted.
  let stateAndKV : Option SavedState × Option (Tensor3 ℝ) × Option (Tensor3 ℝ) ←
    match past with
    | some p =>
      let ss := p.get cfg.attn_key
      if ss.prev_key.isSome then
        if static_kv then
          if cfg.encoder_decoder_attention then pure (some ss, none, none)
          else throw (.assertionError "self.encoder_decoder_attention")
        else pure (some ss, key, value)
      else pure (some ss, key, value)
    | none => pure (none, key, value)
  let savedStateOpt := stateAndKV.1
  let keyEff := stateAndKV.2.1
  let valueEff := stateAndKV.2.2
  let q0 := (cfg.q_proj.apply query).smul cfg.scaling
  let kv : Option (Tensor3 ℝ) × Option (Tensor3 ℝ) ←
    if cfg.encoder_decoder_attention then
      match keyEff with
      | none =>
        if valueEff.isSome then throw (.assertionError "value is None")
        else pure (none, none)
      | some kt =>
        -- note: the source applies `v_proj` to `key`, not to `value`
        pure (some (cfg.k_proj.apply kt), some (cfg.v_proj.apply kt))
    else
      pure (some (cfg.k_proj.apply query), some (cfg.v_proj.apply query))
  let q := cfg.shapeT q0 bsz
  let kShaped := kv.1.map (fun t => cfg.shapeT t bsz)
  let vShaped := kv.2.map (fun t => cfg.shapeT t bsz)
  let merged : Option (Tensor3 ℝ) × Option (Tensor3 ℝ) × Option KPM × Option Past ←
    match savedStateOpt with
    | some ss => do
      let r ← cfg.useAndUpdateSavedState kShaped vShaped ss key_padding_mask
        ((past.getD Past.empty)) static_kv bsz
      pure (some r.1, some r.2.1, r.2.2.1, some r.2.2.2)
    | none => pure (kShaped, vShaped, key_padding_mask, past)
  let kOpt := merged.1
  let vOpt := merged.2.1
  let kpmEff0 := merged.2.2.1
  let pastOut := merged.2.2.2
  let k ← match kOpt with
    | some kk => pure kk
    | none => throw (.assertionError "k is not None")
  let src_len := k.d1
  -- workaround: a zero-dimensional key_padding_mask is dropped here
  let kpmEff : Option KPM :=
    match kpmEff0 with
    | some (.scalar _) => none
    | other => other
  match kpmEff with
  | some (.mat m) =>
    if ¬(m.d0 = bsz ∧ m.d1 = src_len) then
      throw (.assertionError "key_padding_mask.size()[:2] == (bsz, src_len)")
    else pure ()
  | _ => pure ()
  let attn_weights0 := (bmm q (transpose12 k)).toXR
  if ¬(attn_weights0.d0 = bsz * cfg.num_heads ∧ attn_weights0.d1 = tgt_len ∧
      attn_weights0.d2 = src_len) then
    throw (.assertionError "attn_weights.size()")
  let attn_weights1 :=
    match attn_mask with
    | some m => addAttnMask attn_weights0 m
    | none => attn_weights0
  let attn_weights2 :=
    match kpmEff with
    | some (.mat m) =>
      view3of4 (maskedFill4 (view4 attn_weights1 bsz cfg.num_heads) m)
    | _ => attn_weights1
  let attn_weights_float := softmax3 attn_weights2
  let attn_probs := dropoutEval attn_weights_float cfg.dropout
  let v ← match vOpt with
    | some vv => pure vv
    | none => throw (.assertionError "v is not None")
  let attn_output0 := bmm attn_probs v
  if ¬(attn_output0.d0 = bsz * cfg.num_heads ∧ attn_output0.d1 = tgt_len ∧
      attn_output0.d2 = cfg.head_dim) then
    throw (.assertionError "attn_output.size()")
  let attn_output1 := cfg.unshapeT attn_output0 tgt_len bsz embed_dim
  let attn_output := cfg.out_proj.apply attn_output1
  let attn_weightsOut := view4 attn_weights_float bsz cfg.num_heads
  pure (attn_output, attn_weightsOut, pastOut)

/-! ### Supporting lemmas -/

/-- Splitting the merged `bsz*num_heads` axis and re-merging it is the
identity when the merged dimension matches. -/
theorem view3of4_view4 {α : Type} (t : Tensor3 α) (bsz H : ℕ)
    (h : t.d0 = bsz * H) : view3of4 (view4 t bsz H) = t := by
  ext i s d
  · exact h.symm
  · rfl
  · rfl
  · show t.val (i / H * H + i % H) s d = t.val i s d
    rw [Nat.div_add_mod']

/-- Reading back the entry just written into the cache. -/
theorem Past.get_set (p : Past) (k : String) (ss : SavedState) :
    (p.set k ss).get k = ss := by
  simp [Past.get, Past.set]

/-- Divisibility in terms of the truncated quotient, as `__init__` tests it. -/
theorem div_mul_ne_of_not_dvd {E H : ℕ} (h : ¬ H ∣ E) : E / H * H ≠ E :=
  fun he => h (Dvd.intro_left (E / H) he)

/-- Reduction of `throw` in the `Except` monad. -/
@[simp]
theorem exc_throw {ε α : Type} (e : ε) :
    (throw e : Except ε α) = Except.error e := rfl

/-- Reduction of `pure` in the `Except` monad. -/
@[simp]
theorem exc_pure {ε α : Type} (a : α) :
    (pure a : Except ε α) = Except.ok a := rfl

/-- Binding an error short-circuits. -/
@[simp]
theorem exc_bind_error {ε α β : Type} (e : ε) (f : α → Except ε β) :
    (Except.error e : Except ε α) >>= f = Except.error e := rfl

/-- Binding a success applies the continuation. -/
@[simp]
theorem exc_bind_ok {ε α β : Type} (a : α) (f : α → Except ε β) :
    (Except.ok a : Except ε α) >>= f = f a := rfl

/-- Mapping over an error is the identity on the error. -/
@[simp]
theorem exc_map_error {ε α β : Type} (e : ε) (f : α → β) :
    f <$> (Except.error e : Except ε α) = Except.error e := rfl

/-- Mapping over a success applies the function. -/
@[simp]
theorem exc_map_ok {ε α β : Type} (a : α) (f : α → β) :
    f <$> (Except.ok a : Except ε α) = Except.ok (f a) := rfl

/-! ### Claim theorems -/

/-- C8: constructing the attention unit with an `embed_dim` that is not
evenly divisible by `num_heads` (e.g. `embed_dim = 10, num_heads = 3`)
fails at construction time with the divisibility assertion (the design
document's ShapeError), before any forward call is possible. -/
theorem C8_init_divisibility (E H : ℕ) (kd vd : Option ℕ) (dr : ℝ)
    (kW : ℕ → ℕ → ℝ) (kB : ℕ → ℝ) (vW : ℕ → ℕ → ℝ) (vB : ℕ → ℝ)
    (qW : ℕ → ℕ → ℝ) (qB : ℕ → ℝ) (oW : ℕ → ℕ → ℝ) (oB : ℕ → ℝ)
    (eda : Bool) (h : ¬ H ∣ E) :
    SelfAttention.init E H kd vd dr kW kB vW vB qW qB oW oB eda =
      .error (.assertionError "embed_dim must be divisible by num_heads") := by
  simp only [SelfAttention.init]
  rw [if_pos (div_mul_ne_of_not_dvd h)]

/-- C8 witness: the concrete instantiation `embed_dim = 10, num_heads = 3`
from the design document. -/
theorem C8_init_divisibility_witness :
    ¬ (3 ∣ 10) ∧
      SelfAttention.init 10 3 none none 0 (fun _ _ => 0) (fun _ => 0)
          (fun _ _ => 0) (fun _ => 0) (fun _ _ => 0) (fun _ => 0)
          (fun _ _ => 0) (fun _ => 0) false =
        .error (.assertionError "embed_dim must be divisible by num_heads") :=
  ⟨by decide,
    C8_init_divisibility 10 3 none none 0 _ _ _ _ _ _ _ _ false (by decide)⟩

/-- C9: a cross-attention call with `static_kv = true`, no populated cache
entry for this attention site, and `key = value = None` fails fast with an
assertion failure — the `k is not None` contract assert (the design
document's InvalidStateError) — instead of proceeding. -/
theorem C9_static_kv_invalid_state (cfg : SelfAttention) (query : Tensor3 ℝ)
    (kpm : Option KPM) (nw : Bool) (am : Option (Tensor2 XR))
    (past : Option Past)
    (henc : cfg.encoder_decoder_attention = true)
    (hq2 : query.d2 = cfg.embed_dim)
    (hpast : past = none ∨
      ∃ p, past = some p ∧ (p.get cfg.attn_key).prev_key = none) :
    cfg.forward query none none kpm past nw true am =
        .error (.assertionError "k is not None") ∨
      cfg.forward query none none kpm past nw true am =
        .error (.assertionError "k is not None and v is not None") := by
  rcases hpast with h | ⟨p, rfl, hpk⟩
  · subst h
    left
    simp [SelfAttention.forward, henc, hq2]
  · right
    cases hpv : (p.get cfg.attn_key).prev_value <;>
      simp [SelfAttention.forward, henc, hq2, hpk, hpv,
        SelfAttention.useAndUpdateSavedState]

/-- A 1×1 linear layer with zero weight and bias, for concrete scenarios. -/
noncomputable def zeroLin1 : Linear := ⟨1, 1, fun _ _ => 0, fun _ => 0⟩

/-- A 1-head, 1-dimensional cross-attention module, for concrete scenarios. -/
noncomputable def crossCfg1 : SelfAttention :=
  { embed_dim := 1, kdim := 1, vdim := 1, num_heads := 1, dropout := 0,
    head_dim := 1, scaling := 1, encoder_decoder_attention := true,
    k_proj := zeroLin1, v_proj := zeroLin1, q_proj := zeroLin1,
    out_proj := zeroLin1 }

/-- A `[1, 1, 1]` all-zero query tensor, for concrete scenarios. -/
noncomputable def unitQuery : Tensor3 ℝ := ⟨1, 1, 1, fun _ _ _ => 0⟩

/-- C9 witness: a concrete cross-attention call with `static_kv`, no cache
at all, and `key = value = None` hits the contract assertion. -/
theorem C9_static_kv_invalid_state_witness :
    (crossCfg1.encoder_decoder_attention = true ∧
        unitQuery.d2 = crossCfg1.embed_dim ∧
        ((none : Option Past) = none ∨
          ∃ p, (none : Option Past) = some p ∧
            (p.get crossCfg1.attn_key).prev_key = none)) ∧
      (crossCfg1.forward unitQuery none none none none false true none =
          .error (.assertionError "k is not None") ∨
        crossCfg1.forward unitQuery none none none none false true none =
          .error (.assertionError "k is not None and v is not None")) :=
  ⟨⟨rfl, rfl, Or.inl rfl⟩,
    C9_static_kv_invalid_state crossCfg1 unitQuery none false none none
      rfl rfl (Or.inl rfl)⟩

/-- C10 (amended): when no cache is provided, a zero-dimensional (scalar)
`key_padding_mask` is discarded before the mask shape check and the masking
step, and the call behaves exactly like the same call with
`key_padding_mask = None`.  (With a cache present the scalar mask instead
reaches the cache mask-concatenation first and raises; see the
counterexample.) -/
theorem C10_scalar_mask_no_cache (cfg : SelfAttention) (query : Tensor3 ℝ)
    (key value : Option (Tensor3 ℝ)) (x : ℝ) (nw static : Bool)
    (am : Option (Tensor2 XR)) :
    cfg.forward query key value (some (.scalar x)) none nw static am =
      cfg.forward query key value none none nw static am := rfl

/-- A 1-head, 1-dimensional self-attention module, for concrete scenarios. -/
noncomputable def selfCfg1 : SelfAttention :=
  { embed_dim := 1, kdim := 1, vdim := 1, num_heads := 1, dropout := 0,
    head_dim := 1, scaling := 1, encoder_decoder_attention := false,
    k_proj := zeroLin1, v_proj := zeroLin1, q_proj := zeroLin1,
    out_proj := zeroLin1 }

/-- C10 counterexample: with a cache dict present (even an empty one), a
scalar `key_padding_mask` is *not* discarded silently — it reaches
`_cat_prev_key_padding_mask` first, where `.size(1)` on a 0-dim tensor
raises an IndexError, while the same call with `key_padding_mask = None`
succeeds.  This refutes the claim's "for every call ... no error raised". -/
theorem C10_counterexample :
    selfCfg1.forward unitQuery (some unitQuery) (some unitQuery)
        (some (.scalar 0)) (some Past.empty) false false none =
      .error (.indexError "Dimension out of range") ∧
    ∃ r, selfCfg1.forward unitQuery (some unitQuery) (some unitQuery)
        none (some Past.empty) false false none = .ok r :=
  ⟨rfl, ⟨_, rfl⟩⟩

/-- C4 (amended): whenever keys/values are not reused from a static cache,
`K` is computed by applying the key projection to the provided `key`
argument — but `V` is computed by applying the value projection to the
*key* argument as well (`v = self.v_proj(key)` in the source); the `value`
argument never influences the result of a call in which `key` is provided
(and in self-attention both projections are applied to the query). -/
theorem C4_value_argument_ignored (cfg : SelfAttention) (query kt : Tensor3 ℝ)
    (v₁ v₂ : Option (Tensor3 ℝ)) (kpm : Option KPM) (past : Option Past)
    (nw static : Bool) (am : Option (Tensor2 XR)) :
    cfg.forward query (some kt) v₁ kpm past nw static am =
      cfg.forward query (some kt) v₂ kpm past nw static am := rfl

/-- A 1×1 identity linear layer (weight 1, bias 0). -/
noncomputable def idLin1 : Linear := ⟨1, 1, fun _ _ => 1, fun _ => 0⟩

/-- A cross-attention module whose four projections are all the 1×1
identity, so the context output reflects `V` directly. -/
noncomputable def idCrossCfg1 : SelfAttention :=
  { embed_dim := 1, kdim := 1, vdim := 1, num_heads := 1, dropout := 0,
    head_dim := 1, scaling := 1, encoder_decoder_attention := true,
    k_proj := idLin1, v_proj := idLin1, q_proj := idLin1,
    out_proj := idLin1 }

/-- A `[1, 1, 1]` all-ones tensor. -/
noncomputable def onesT1 : Tensor3 ℝ := ⟨1, 1, 1, fun _ _ _ => 1⟩

/-- Extract the context entry at `(0, 0, 0)` of a successful forward call
(junk value 37 on error). -/
noncomputable def outAt000 (r : Except Err (Tensor3 ℝ × Tensor4 ℝ × Option Past)) : ℝ :=
  match r with
  | .ok x => x.1.val 0 0 0
  | .error _ => 37

/-- C4 counterexample: with identity projections (so `V` is observable in
the context output), two calls differing only in the `value` argument
(all-zeros vs all-ones) return identical results, while swapping the *key*
argument instead moves the context from 0 to 1.  So `V` is the value
projection of the `key` argument — `v = self.v_proj(key)` — not of the
`value` argument, refuting the claim as stated (under the claim, the two
`value`-swapped calls would return 0 and 1 respectively). -/
theorem C4_counterexample :
    idCrossCfg1.forward unitQuery (some unitQuery) (some onesT1)
        none none false false none =
      idCrossCfg1.forward unitQuery (some unitQuery) (some unitQuery)
        none none false false none ∧
    onesT1.val 0 0 0 ≠ unitQuery.val 0 0 0 ∧
    outAt000 (idCrossCfg1.forward unitQuery (some unitQuery) (some onesT1)
        none none false false none) = 0 ∧
    outAt000 (idCrossCfg1.forward unitQuery (some onesT1) (some unitQuery)
        none none false false none) = 1 := by
  refine ⟨rfl, by norm_num [onesT1, unitQuery], ?_, ?_⟩ <;>
    norm_num [outAt000, SelfAttention.forward, Linear.apply, Tensor3.smul,
      SelfAttention.shapeT, bmm, transpose12, Tensor3.toXR, softmax3, XR.expx,
      dropoutEval, SelfAttention.unshapeT, view4, idCrossCfg1, idLin1, onesT1,
      unitQuery, Finset.sum_range_one, Real.exp_zero]

/-- Eliminate a successful `Except` bind into its two successful stages. -/
theorem bind_ok_elim {ε α β : Type} {x : Except ε α} {f : α → Except ε β}
    {b : β} (h : x >>= f = .ok b) : ∃ a, x = .ok a ∧ f a = .ok b := by
  cases x with
  | error e => exact absurd h (by simp)
  | ok a => exact ⟨a, rfl, by simpa using h⟩

set_option maxHeartbeats 2000000 in
/-- Structure of every successful `forward` call: the embed-dim assert
passed, the context has the query's sequence/batch dims with the output
projection's feature count, and the returned weights are the
`[bsz, heads, tgt, src]` view of a softmax. -/
theorem forward_ok_struct (cfg : SelfAttention) (query : Tensor3 ℝ)
    (key value : Option (Tensor3 ℝ)) (kpm : Option KPM) (past : Option Past)
    (nw static : Bool) (am : Option (Tensor2 XR))
    (r : Tensor3 ℝ × Tensor4 ℝ × Option Past)
    (h : cfg.forward query key value kpm past nw static am = .ok r) :
    query.d2 = cfg.embed_dim ∧
      (r.1.d0 = query.d0 ∧ r.1.d1 = query.d1 ∧
        r.1.d2 = cfg.out_proj.outFeatures) ∧
      ∃ X, r.2.1 = view4 (softmax3 X) query.d1 cfg.num_heads := by
  unfold SelfAttention.forward at h
  repeat'
    first
    | (split at h)
    | (obtain ⟨_, _, h⟩ := bind_ok_elim h)
    | (simp only [exc_bind_error, exc_bind_ok, exc_throw, exc_pure,
        exc_map_error, exc_map_ok] at h)
  all_goals
    first
    | exact Except.noConfusion h
    | (injection h with h2; subst h2;
       exact ⟨by omega, ⟨rfl, rfl, rfl⟩, _, rfl⟩)

/-- Facts established by a successful `__init__`: the configured dims, the
divisibility invariant, and the output projection's feature count. -/
theorem init_ok_facts {E H : ℕ} {kd vd : Option ℕ} {dr : ℝ}
    {kW : ℕ → ℕ → ℝ} {kB : ℕ → ℝ} {vW : ℕ → ℕ → ℝ} {vB : ℕ → ℝ}
    {qW : ℕ → ℕ → ℝ} {qB : ℕ → ℝ} {oW : ℕ → ℕ → ℝ} {oB : ℕ → ℝ}
    {eda : Bool} {cfg : SelfAttention}
    (h : SelfAttention.init E H kd vd dr kW kB vW vB qW qB oW oB eda = .ok cfg) :
    cfg.embed_dim = E ∧ cfg.num_heads = H ∧
      cfg.head_dim * cfg.num_heads = cfg.embed_dim ∧
      cfg.out_proj.outFeatures = cfg.embed_dim := by
  unfold SelfAttention.init at h
  dsimp only [] at h
  split at h
  · exact Except.noConfusion h
  · split at h
    · exact Except.noConfusion h
    · rename_i ha hb
      injection h with h2
      subst h2
      exact ⟨rfl, rfl, not_not.mp ha, rfl⟩

/-- A softmax row with at least one nonzero entry sums to 1 (the nonzero
entry forces a nonzero denominator, and the row shares one denominator). -/
theorem softmax_row_sum (X : Tensor3 XR) (i q : ℕ)
    (hex : ∃ s, s < X.d2 ∧ (softmax3 X).val i q s ≠ 0) :
    ∑ s ∈ Finset.range X.d2, (softmax3 X).val i q s = 1 := by
  obtain ⟨s0, _hs0, hne⟩ := hex
  have hD : (∑ m ∈ Finset.range X.d2, XR.expx (X.val i q m)) ≠ 0 := by
    intro h0
    exact hne (by simp [softmax3, h0])
  simp only [softmax3]
  rw [← Finset.sum_div]
  exact div_self hD

/-- Pull the payload out of a successful `Except` (default on error); used
to name concrete results of concrete calls in witness statements. -/
def extractOk {ε α : Type} (x : Except ε α) (dflt : α) : α :=
  match x with
  | .ok a => a
  | .error _ => dflt

/-- A junk default forward-result triple for `extractOk`. -/
noncomputable def junkResult : Tensor3 ℝ × Tensor4 ℝ × Option Past :=
  (⟨0, 0, 0, fun _ _ _ => 0⟩, ⟨0, 0, 0, 0, fun _ _ _ _ => 0⟩, none)

/-- C6: for a module built by `__init__` (so `embed_dim` is divisible by
`num_heads` and the projections have their configured sizes), every
successful forward call returns a context tensor with exactly the query's
shape `[tgt_len, bsz, embed_dim]`. -/
theorem C6_shape_preservation (E H : ℕ) (kd vd : Option ℕ) (dr : ℝ)
    (kW : ℕ → ℕ → ℝ) (kB : ℕ → ℝ) (vW : ℕ → ℕ → ℝ) (vB : ℕ → ℝ)
    (qW : ℕ → ℕ → ℝ) (qB : ℕ → ℝ) (oW : ℕ → ℕ → ℝ) (oB : ℕ → ℝ)
    (eda : Bool) (cfg : SelfAttention) (query : Tensor3 ℝ)
    (key value : Option (Tensor3 ℝ)) (kpm : Option KPM) (past : Option Past)
    (nw static : Bool) (am : Option (Tensor2 XR))
    (r : Tensor3 ℝ × Tensor4 ℝ × Option Past)
    (hinit : SelfAttention.init E H kd vd dr kW kB vW vB qW qB oW oB eda =
      .ok cfg)
    (h : cfg.forward query key value kpm past nw static am = .ok r) :
    r.1.d0 = query.d0 ∧ r.1.d1 = query.d1 ∧ r.1.d2 = query.d2 := by
  obtain ⟨hq2, ⟨h0, h1, h2⟩, -⟩ :=
    forward_ok_struct cfg query key value kpm past nw static am r h
  obtain ⟨-, -, -, hout⟩ := init_ok_facts hinit
  exact ⟨h0, h1, by rw [h2, hout, ← hq2]⟩

/-- A module built by a concrete `__init__` call with 1×1 identity
projections (for witnesses). -/
noncomputable def c6cfg : SelfAttention :=
  extractOk (SelfAttention.init 1 1 none none 0 (fun _ _ => 1) (fun _ => 0)
    (fun _ _ => 1) (fun _ => 0) (fun _ _ => 1) (fun _ => 0) (fun _ _ => 1)
    (fun _ => 0) false) selfCfg1

/-- The concrete result of a concrete `forward` call on `c6cfg`. -/
noncomputable def c6r : Tensor3 ℝ × Tensor4 ℝ × Option Past :=
  extractOk (c6cfg.forward unitQuery (some unitQuery) (some unitQuery)
    none none false false none) junkResult

/-- C6 witness: the concrete constructed module and call above. -/
theorem C6_shape_preservation_witness :
    (SelfAttention.init 1 1 none none 0 (fun _ _ => 1) (fun _ => 0)
        (fun _ _ => 1) (fun _ => 0) (fun _ _ => 1) (fun _ => 0)
        (fun _ _ => 1) (fun _ => 0) false = .ok c6cfg ∧
      c6cfg.forward unitQuery (some unitQuery) (some unitQuery)
        none none false false none = .ok c6r) ∧
    (c6r.1.d0 = unitQuery.d0 ∧ c6r.1.d1 = unitQuery.d1 ∧
      c6r.1.d2 = unitQuery.d2) :=
  ⟨⟨rfl, rfl⟩,
    C6_shape_preservation 1 1 none none 0 _ _ _ _ _ _ _ _ false c6cfg
      unitQuery (some unitQuery) (some unitQuery) none none false false none
      c6r rfl rfl⟩

/-- C5: for every successful forward call and every (batch, head,
query-position) whose weight row is not identically zero — equivalently,
whose logits row has at least one finite entry, since a softmax weight is
nonzero exactly when its logit is finite — the returned attention-weight
row sums to 1 (so the context there is a convex combination of the value
vectors). -/
theorem C5_row_stochastic (cfg : SelfAttention) (query : Tensor3 ℝ)
    (key value : Option (Tensor3 ℝ)) (kpm : Option KPM) (past : Option Past)
    (nw static : Bool) (am : Option (Tensor2 XR))
    (r : Tensor3 ℝ × Tensor4 ℝ × Option Past) (b hh t : ℕ)
    (hok : cfg.forward query key value kpm past nw static am = .ok r)
    (hrow : ∃ s, s < r.2.1.d3 ∧ r.2.1.val b hh t s ≠ 0) :
    ∑ s ∈ Finset.range r.2.1.d3, r.2.1.val b hh t s = 1 := by
  obtain ⟨-, -, X, hX⟩ :=
    forward_ok_struct cfg query key value kpm past nw static am r hok
  rw [hX] at hrow ⊢
  simp only [view4] at hrow ⊢
  exact softmax_row_sum X (b * cfg.num_heads + hh) t hrow

/-- The concrete result of a concrete self-attention `forward` call with
zero weights (for the C5 witness). -/
noncomputable def c5r : Tensor3 ℝ × Tensor4 ℝ × Option Past :=
  extractOk (selfCfg1.forward unitQuery (some unitQuery) (some unitQuery)
    none none false false none) junkResult

/-- C5 witness: in the concrete call the single weight equals 1, so its
row is nonzero and sums to 1. -/
theorem C5_row_stochastic_witness :
    (selfCfg1.forward unitQuery (some unitQuery) (some unitQuery)
        none none false false none = .ok c5r ∧
      ∃ s, s < c5r.2.1.d3 ∧ c5r.2.1.val 0 0 0 s ≠ 0) ∧
    ∑ s ∈ Finset.range c5r.2.1.d3, c5r.2.1.val 0 0 0 s = 1 :=
  ⟨⟨rfl, ⟨0, by exact Nat.one_pos, by
      norm_num [c5r, extractOk, SelfAttention.forward, Linear.apply,
        Tensor3.smul, SelfAttention.shapeT, bmm, transpose12, Tensor3.toXR,
        softmax3, XR.expx, dropoutEval, SelfAttention.unshapeT, view4,
        selfCfg1, zeroLin1, unitQuery, Finset.sum_range_one,
        Real.exp_zero]⟩⟩,
    C5_row_stochastic selfCfg1 unitQuery (some unitQuery) (some unitQuery)
      none none false false none c5r 0 0 0 rfl
      ⟨0, by exact Nat.one_pos, by
        norm_num [c5r, extractOk, SelfAttention.forward, Linear.apply,
          Tensor3.smul, SelfAttention.shapeT, bmm, transpose12, Tensor3.toXR,
          softmax3, XR.expx, dropoutEval, SelfAttention.unshapeT, view4,
          selfCfg1, zeroLin1, unitQuery, Finset.sum_range_one,
          Real.exp_zero]⟩⟩

set_option maxHeartbeats 2000000 in
/-- Structure of a successful `forward` call with no cache and a matrix
key-padding mask: the returned weights are the softmax of logits that went
through `masked_fill` with exactly that mask. -/
theorem forward_ok_masked (cfg : SelfAttention) (query : Tensor3 ℝ)
    (key value : Option (Tensor3 ℝ)) (m : Tensor2 ℝ) (nw static : Bool)
    (am : Option (Tensor2 XR)) (r : Tensor3 ℝ × Tensor4 ℝ × Option Past)
    (h : cfg.forward query key value (some (.mat m)) none nw static am =
      .ok r) :
    ∃ X, r.2.1 =
      view4 (softmax3 (view3of4 (maskedFill4 (view4 X query.d1 cfg.num_heads)
        m))) query.d1 cfg.num_heads := by
  unfold SelfAttention.forward at h
  dsimp only [] at h
  repeat'
    first
    | (split at h)
    | (obtain ⟨_, _, h⟩ := bind_ok_elim h)
    | (simp only [exc_bind_error, exc_bind_ok, exc_throw, exc_pure,
        exc_map_error, exc_map_ok] at h)
  all_goals
    first
    | exact Except.noConfusion h
    | (injection h with h2; subst h2; exact ⟨_, rfl⟩)

/-- C3 (amended): for every call with **no cache** and a `[bsz, src_len]`
key-padding mask marking a set of source positions as padding (with at
least one unmasked position in the mask row), the returned attention
weight at every padded key position is exactly 0 for every head, batch
element and query position.  (With a populated `static_kv` cache the
call's own mask can be ignored entirely; see the counterexample.) -/
theorem C3_padding_mask_zero_weight (cfg : SelfAttention)
    (query : Tensor3 ℝ) (key value : Option (Tensor3 ℝ)) (m : Tensor2 ℝ)
    (nw static : Bool) (am : Option (Tensor2 XR))
    (r : Tensor3 ℝ × Tensor4 ℝ × Option Past) (b hh t s : ℕ)
    (hok : cfg.forward query key value (some (.mat m)) none nw static am =
      .ok r)
    (hpad : m.val b s ≠ 0)
    (hhlt : hh < cfg.num_heads)
    (hrow : ∃ s2, s2 < m.d1 ∧ m.val b s2 = 0) :
    r.2.1.val b hh t s = 0 := by
  obtain ⟨X, hX⟩ :=
    forward_ok_masked cfg query key value m nw static am r hok
  have hpos : 0 < cfg.num_heads := lt_of_le_of_lt (Nat.zero_le hh) hhlt
  have hdiv : (b * cfg.num_heads + hh) / cfg.num_heads = b := by
    rw [Nat.mul_comm b cfg.num_heads, Nat.mul_add_div hpos,
      Nat.div_eq_of_lt hhlt, Nat.add_zero]
  have hmod : (b * cfg.num_heads + hh) % cfg.num_heads = hh := by
    rw [Nat.mul_comm b cfg.num_heads, Nat.mul_add_mod, Nat.mod_eq_of_lt hhlt]
  rw [hX]
  simp only [view4, view3of4, maskedFill4, softmax3]
  rw [hdiv]
  rw [if_neg hpad]
  simp [XR.expx]

/-- A `[2, 1, 1]` all-zero query (two target positions). -/
noncomputable def query2 : Tensor3 ℝ := ⟨2, 1, 1, fun _ _ _ => 0⟩

/-- A `[1, 2]` key-padding mask marking source position 0 as padding and
leaving position 1 unmasked. -/
noncomputable def padMask01 : Tensor2 ℝ :=
  ⟨1, 2, fun _ s => if s = 0 then 1 else 0⟩

/-- The concrete result of the masked self-attention call for the C3
witness. -/
noncomputable def c3r : Tensor3 ℝ × Tensor4 ℝ × Option Past :=
  extractOk (selfCfg1.forward query2 (some query2) (some query2)
    (some (.mat padMask01)) none false false none) junkResult

/-- C3 witness: the concrete masked call above, at padded position 0. -/
theorem C3_padding_mask_zero_weight_witness :
    (selfCfg1.forward query2 (some query2) (some query2)
        (some (.mat padMask01)) none false false none = .ok c3r ∧
      padMask01.val 0 0 ≠ 0 ∧ 0 < selfCfg1.num_heads ∧
      (∃ s2, s2 < padMask01.d1 ∧ padMask01.val 0 s2 = 0)) ∧
    c3r.2.1.val 0 0 0 0 = 0 :=
  ⟨⟨rfl, by norm_num [padMask01], Nat.one_pos,
      ⟨1, by norm_num [padMask01]⟩⟩,
    C3_padding_mask_zero_weight selfCfg1 query2 (some query2) (some query2)
      padMask01 false false none c3r 0 0 0 0 rfl
      (by norm_num [padMask01]) Nat.one_pos ⟨1, by norm_num [padMask01]⟩⟩

/-- The stored cross-attention cache entry for the C3 counterexample:
projected keys/values for a length-2 encoder sequence, together with an
all-zeros (nothing padded) stored key-padding mask. -/
noncomputable def cexPrevK4 : Tensor4 ℝ := ⟨1, 1, 2, 1, fun _ _ _ _ => 0⟩

/-- A cache dict holding that populated cross-attention entry. -/
noncomputable def cexPast : Past :=
  Past.empty.set "encoder_decoder_attn"
    ⟨some cexPrevK4, some cexPrevK4, some (.mat (zeros2 1 2))⟩

/-- Extract the attention weight at `(0, 0, 0, 0)` of a successful forward
call (junk value 37 on error). -/
noncomputable def weightAt0000
    (r : Except Err (Tensor3 ℝ × Tensor4 ℝ × Option Past)) : ℝ :=
  match r with
  | .ok x => x.2.1.val 0 0 0 0
  | .error _ => 37

/-- C3 counterexample: a `static_kv` cross-attention call on a populated
cache whose stored mask pads nothing.  The call's own `key_padding_mask`
marks source position 0 as padding (and leaves position 1 unmasked, so the
claim's precondition holds), yet the returned weight at position 0 is
`1/2`, not 0: `_cat_prev_key_padding_mask` discards the passed mask in
favour of the stored one when `static_kv` is set, refuting the claim for
every-call scope. -/
theorem C3_counterexample :
    padMask01.val 0 0 ≠ 0 ∧
    (∃ s2, s2 < padMask01.d1 ∧ padMask01.val 0 s2 = 0) ∧
    weightAt0000 (crossCfg1.forward unitQuery none none
      (some (.mat padMask01)) (some cexPast) false true none) = 1 / 2 := by
  refine ⟨by norm_num [padMask01], ⟨1, by norm_num [padMask01]⟩, ?_⟩
  norm_num [weightAt0000, SelfAttention.forward,
    SelfAttention.useAndUpdateSavedState, SelfAttention.catPrevKeyPaddingMask,
    SelfAttention.attn_key, Past.get_set, Past.get, Past.set, Past.empty,
    Linear.apply, Tensor3.smul, SelfAttention.shapeT, bmm, transpose12,
    Tensor3.toXR, softmax3, XR.expx, dropoutEval, SelfAttention.unshapeT,
    view4, view3of4, maskedFill4, zeros2, crossCfg1, zeroLin1, unitQuery,
    cexPast, cexPrevK4, Finset.sum_range_one, Finset.sum_range_succ,
    Real.exp_zero]

/-- The scaled, head-shaped query projection `_shape(q_proj(query) * scaling)`. -/
noncomputable def qProjShaped (cfg : SelfAttention) (query : Tensor3 ℝ) : Tensor3 ℝ :=
  cfg.shapeT ((cfg.q_proj.apply query).smul cfg.scaling) query.d1

/-- The tail of `forward` after the logits `X` and merged values `v` are
fixed: softmax, (eval-mode) dropout, context, output projection, and the
returned weight view. -/
noncomputable def attnOut (cfg : SelfAttention) (query : Tensor3 ℝ)
    (X : Tensor3 XR) (v : Tensor3 ℝ) : Tensor3 ℝ × Tensor4 ℝ :=
  (cfg.out_proj.apply (cfg.unshapeT (bmm (dropoutEval (softmax3 X) cfg.dropout) v)
      query.d0 query.d1 query.d2),
   view4 (softmax3 X) query.d1 cfg.num_heads)

/-- The optional additive-bias-mask step of `forward`. -/
def applyAM (t : Tensor3 XR) : Option (Tensor2 XR) → Tensor3 XR
  | some m => addAttnMask t m
  | none => t

/-- Run of `forward` for self-attention with a cache dict whose entry for
this site is still empty: keys/values are projected from the query and
stored. -/
theorem forward_first_self (cfg : SelfAttention) (query : Tensor3 ℝ)
    (key value : Option (Tensor3 ℝ)) (p : Past) (nw : Bool)
    (henc : cfg.encoder_decoder_attention = false)
    (hq2 : query.d2 = cfg.embed_dim)
    (hget : p.get cfg.attn_key = SavedState.empty) :
    cfg.forward query key value none (some p) nw false none =
      .ok
        ((attnOut cfg query
            (bmm (qProjShaped cfg query)
              (transpose12 (cfg.shapeT (cfg.k_proj.apply query) query.d1))).toXR
            (cfg.shapeT (cfg.v_proj.apply query) query.d1)).1,
          (attnOut cfg query
            (bmm (qProjShaped cfg query)
              (transpose12 (cfg.shapeT (cfg.k_proj.apply query) query.d1))).toXR
            (cfg.shapeT (cfg.v_proj.apply query) query.d1)).2,
          some (p.set cfg.attn_key
            ⟨some (view4 (cfg.shapeT (cfg.k_proj.apply query) query.d1)
                query.d1 cfg.num_heads),
              some (view4 (cfg.shapeT (cfg.v_proj.apply query) query.d1)
                query.d1 cfg.num_heads), none⟩)) := by
  simp [SelfAttention.forward, SelfAttention.useAndUpdateSavedState,
    SelfAttention.catPrevKeyPaddingMask, hget, henc, hq2, SavedState.empty,
    attnOut, qProjShaped, bmm, Tensor3.toXR, transpose12,
    SelfAttention.shapeT, dropoutEval, softmax3, Linear.apply, Tensor3.smul,
    SelfAttention.unshapeT, view4]


set_option maxHeartbeats 4000000 in
/-- Run of `forward` for self-attention with no cache and no key-padding
mask (an optional additive bias mask is applied to the logits). -/
theorem forward_nopast_self (cfg : SelfAttention) (query : Tensor3 ℝ)
    (key value : Option (Tensor3 ℝ)) (nw : Bool) (am : Option (Tensor2 XR))
    (henc : cfg.encoder_decoder_attention = false)
    (hq2 : query.d2 = cfg.embed_dim) :
    cfg.forward query key value none none nw false am =
      .ok
        ((attnOut cfg query
            (applyAM (bmm (qProjShaped cfg query)
              (transpose12 (cfg.shapeT (cfg.k_proj.apply query) query.d1))).toXR
              am)
            (cfg.shapeT (cfg.v_proj.apply query) query.d1)).1,
          (attnOut cfg query
            (applyAM (bmm (qProjShaped cfg query)
              (transpose12 (cfg.shapeT (cfg.k_proj.apply query) query.d1))).toXR
              am)
            (cfg.shapeT (cfg.v_proj.apply query) query.d1)).2,
          none) := by
  cases am <;>
    simp [SelfAttention.forward, henc, hq2, attnOut, qProjShaped, applyAM,
      bmm, Tensor3.toXR, transpose12, SelfAttention.shapeT, dropoutEval,
      softmax3, Linear.apply, Tensor3.smul, SelfAttention.unshapeT, view4,
      addAttnMask]

set_option maxHeartbeats 4000000 in
/-- Run of `forward` for cross-attention with `static_kv` on a cache whose
entry is still empty: `key` is projected (twice — also for `V`) and the
projections are stored. -/
theorem forward_first_cross (cfg : SelfAttention) (query kt : Tensor3 ℝ)
    (value : Option (Tensor3 ℝ)) (p : Past) (nw : Bool)
    (henc : cfg.encoder_decoder_attention = true)
    (hq2 : query.d2 = cfg.embed_dim)
    (hget : p.get cfg.attn_key = SavedState.empty) :
    cfg.forward query (some kt) value none (some p) nw true none =
      .ok
        ((attnOut cfg query
            (bmm (qProjShaped cfg query)
              (transpose12 (cfg.shapeT (cfg.k_proj.apply kt) query.d1))).toXR
            (cfg.shapeT (cfg.v_proj.apply kt) query.d1)).1,
          (attnOut cfg query
            (bmm (qProjShaped cfg query)
              (transpose12 (cfg.shapeT (cfg.k_proj.apply kt) query.d1))).toXR
            (cfg.shapeT (cfg.v_proj.apply kt) query.d1)).2,
          some (p.set cfg.attn_key
            ⟨some (view4 (cfg.shapeT (cfg.k_proj.apply kt) query.d1)
                query.d1 cfg.num_heads),
              some (view4 (cfg.shapeT (cfg.v_proj.apply kt) query.d1)
                query.d1 cfg.num_heads), none⟩)) := by
  simp [SelfAttention.forward, SelfAttention.useAndUpdateSavedState,
    SelfAttention.catPrevKeyPaddingMask, hget, henc, hq2, SavedState.empty,
    attnOut, qProjShaped, bmm, Tensor3.toXR, transpose12,
    SelfAttention.shapeT, dropoutEval, softmax3, Linear.apply, Tensor3.smul,
    SelfAttention.unshapeT, view4]

set_option maxHeartbeats 4000000 in
/-- Run of `forward` for self-attention on a populated, maskless cache
entry: the new projections are concatenated after the stored ones. -/
theorem forward_cached_self (cfg : SelfAttention) (query : Tensor3 ℝ)
    (key value : Option (Tensor3 ℝ)) (p : Past) (K4 V4 : Tensor4 ℝ)
    (nw : Bool)
    (henc : cfg.encoder_decoder_attention = false)
    (hq2 : query.d2 = cfg.embed_dim)
    (hget : p.get cfg.attn_key = ⟨some K4, some V4, none⟩)
    (hV : V4.d3 = cfg.head_dim) :
    cfg.forward query key value none (some p) nw false none =
      .ok
        ((attnOut cfg query
            (bmm (qProjShaped cfg query)
              (transpose12 (cat1 (view3of4 K4)
                (cfg.shapeT (cfg.k_proj.apply query) query.d1)))).toXR
            (cat1 (view3of4 V4)
              (cfg.shapeT (cfg.v_proj.apply query) query.d1))).1,
          (attnOut cfg query
            (bmm (qProjShaped cfg query)
              (transpose12 (cat1 (view3of4 K4)
                (cfg.shapeT (cfg.k_proj.apply query) query.d1)))).toXR
            (cat1 (view3of4 V4)
              (cfg.shapeT (cfg.v_proj.apply query) query.d1))).2,
          some (p.set cfg.attn_key
            ⟨some (view4 (cat1 (view3of4 K4)
                (cfg.shapeT (cfg.k_proj.apply query) query.d1))
                query.d1 cfg.num_heads),
              some (view4 (cat1 (view3of4 V4)
                (cfg.shapeT (cfg.v_proj.apply query) query.d1))
                query.d1 cfg.num_heads), none⟩)) := by
  simp [SelfAttention.forward, SelfAttention.useAndUpdateSavedState,
    SelfAttention.catPrevKeyPaddingMask, hget, henc, hq2, hV,
    attnOut, qProjShaped, bmm, Tensor3.toXR, transpose12, cat1, view3of4,
    SelfAttention.shapeT, dropoutEval, softmax3, Linear.apply, Tensor3.smul,
    SelfAttention.unshapeT, view4]

set_option maxHeartbeats 4000000 in
/-- Run of `forward` for cross-attention with `static_kv` on a populated
maskless cache entry: stored keys/values are reused unchanged, whatever
`key`/`value` are passed. -/
theorem forward_cached_static_cross (cfg : SelfAttention)
    (query : Tensor3 ℝ) (key value : Option (Tensor3 ℝ)) (p : Past)
    (K4 V4 : Tensor4 ℝ) (nw : Bool)
    (henc : cfg.encoder_decoder_attention = true)
    (hq2 : query.d2 = cfg.embed_dim)
    (hget : p.get cfg.attn_key = ⟨some K4, some V4, none⟩)
    (hV : V4.d3 = cfg.head_dim) :
    cfg.forward query key value none (some p) nw true none =
      .ok
        ((attnOut cfg query
            (bmm (qProjShaped cfg query)
              (transpose12 (view3of4 K4))).toXR (view3of4 V4)).1,
          (attnOut cfg query
            (bmm (qProjShaped cfg query)
              (transpose12 (view3of4 K4))).toXR (view3of4 V4)).2,
          some (p.set cfg.attn_key
            ⟨some (view4 (view3of4 K4) query.d1 cfg.num_heads),
              some (view4 (view3of4 V4) query.d1 cfg.num_heads), none⟩)) := by
  simp [SelfAttention.forward, SelfAttention.useAndUpdateSavedState,
    SelfAttention.catPrevKeyPaddingMask, hget, henc, hq2, hV,
    attnOut, qProjShaped, bmm, Tensor3.toXR, transpose12, view3of4,
    SelfAttention.shapeT, dropoutEval, softmax3, Linear.apply, Tensor3.smul,
    SelfAttention.unshapeT, view4]


/-- The optional key-padding-mask step of `forward` (matrix masks only; a
scalar mask has been discarded by this point). -/
noncomputable def applyKPM (cfg : SelfAttention) (bsz : ℕ) (t : Tensor3 XR) :
    Option KPM → Tensor3 XR
  | some (.mat m) => view3of4 (maskedFill4 (view4 t bsz cfg.num_heads) m)
  | _ => t

set_option maxHeartbeats 8000000 in
/-- General run of `forward` for self-attention on a populated cache entry
with arbitrary stored/passed key-padding masks, given that the mask
concatenation succeeds with a well-shaped (or absent) result. -/
theorem forward_cached_self_run (cfg : SelfAttention) (query : Tensor3 ℝ)
    (key value : Option (Tensor3 ℝ)) (kpm : Option KPM) (p : Past)
    (K4 V4 : Tensor4 ℝ) (pm pm' : Option KPM) (nw : Bool)
    (henc : cfg.encoder_decoder_attention = false)
    (hq2 : query.d2 = cfg.embed_dim)
    (hget : p.get cfg.attn_key = ⟨some K4, some V4, pm⟩)
    (hV : V4.d3 = cfg.head_dim)
    (hcat : SelfAttention.catPrevKeyPaddingMask kpm pm query.d1
      (K4.d2 + query.d0) false = .ok pm')
    (hpm' : pm' = none ∨ ∃ mm, pm' = some (.mat mm) ∧ mm.d0 = query.d1 ∧
      mm.d1 = K4.d2 + query.d0) :
    cfg.forward query key value kpm (some p) nw false none =
      .ok
        ((attnOut cfg query
            (applyKPM cfg query.d1
              (bmm (qProjShaped cfg query)
                (transpose12 (cat1 (view3of4 K4)
                  (cfg.shapeT (cfg.k_proj.apply query) query.d1)))).toXR pm')
            (cat1 (view3of4 V4)
              (cfg.shapeT (cfg.v_proj.apply query) query.d1))).1,
          (attnOut cfg query
            (applyKPM cfg query.d1
              (bmm (qProjShaped cfg query)
                (transpose12 (cat1 (view3of4 K4)
                  (cfg.shapeT (cfg.k_proj.apply query) query.d1)))).toXR pm')
            (cat1 (view3of4 V4)
              (cfg.shapeT (cfg.v_proj.apply query) query.d1))).2,
          some (p.set cfg.attn_key
            ⟨some (view4 (cat1 (view3of4 K4)
                (cfg.shapeT (cfg.k_proj.apply query) query.d1))
                query.d1 cfg.num_heads),
              some (view4 (cat1 (view3of4 V4)
                (cfg.shapeT (cfg.v_proj.apply query) query.d1))
                query.d1 cfg.num_heads), pm'⟩)) := by
  rcases hpm' with rfl | ⟨mm, rfl, hm0, hm1⟩
  · simp [SelfAttention.forward, SelfAttention.useAndUpdateSavedState,
      hget, henc, hq2, hV, hcat, applyKPM, maskedFill4,
      attnOut, qProjShaped, bmm, Tensor3.toXR, transpose12, cat1, view3of4,
      SelfAttention.shapeT, dropoutEval, softmax3, Linear.apply, Tensor3.smul,
      SelfAttention.unshapeT, view4]
  · simp [SelfAttention.forward, SelfAttention.useAndUpdateSavedState,
      hget, henc, hq2, hV, hcat, hm0, hm1, applyKPM, maskedFill4,
      attnOut, qProjShaped, bmm, Tensor3.toXR, transpose12, cat1, view3of4,
      SelfAttention.shapeT, dropoutEval, softmax3, Linear.apply, Tensor3.smul,
      SelfAttention.unshapeT, view4]

/-- C2: cross-attention static-KV reuse.  A first `static_kv` call with
explicit `key = value = enc` populates the cache with the frozen encoder
projections; a second call with `key = None, value = None` on the
populated cache reuses the stored tensors unchanged (no reprojection — the
stored tensors are only re-viewed, which is the identity) and returns the
identical context and attention weights. -/
theorem C2_static_kv_reuse (cfg : SelfAttention) (query enc : Tensor3 ℝ)
    (p : Past) (nw nw2 : Bool)
    (henc : cfg.encoder_decoder_attention = true)
    (hq2 : query.d2 = cfg.embed_dim)
    (hget : p.get cfg.attn_key = SavedState.empty) :
    ∃ ctx w p1,
      cfg.forward query (some enc) (some enc) none (some p) nw true none =
        .ok (ctx, w, some p1) ∧
      ∃ r2, cfg.forward query none none none (some p1) nw2 true none =
        .ok r2 ∧ r2.1 = ctx ∧ r2.2.1 = w := by
  refine ⟨_, _, _,
    forward_first_cross cfg query enc (some enc) p nw henc hq2 hget,
    _, forward_cached_static_cross cfg query none none _
      (view4 (cfg.shapeT (cfg.k_proj.apply enc) query.d1) query.d1
        cfg.num_heads)
      (view4 (cfg.shapeT (cfg.v_proj.apply enc) query.d1) query.d1
        cfg.num_heads)
      nw2 henc hq2 (Past.get_set _ _ _) rfl, ?_, ?_⟩ <;>
    rw [view3of4_view4 _ _ _ rfl, view3of4_view4 _ _ _ rfl]

/-- C2 witness: the concrete 1-dimensional cross-attention pair of calls. -/
theorem C2_static_kv_reuse_witness :
    (crossCfg1.encoder_decoder_attention = true ∧
      unitQuery.d2 = crossCfg1.embed_dim ∧
      Past.empty.get crossCfg1.attn_key = SavedState.empty) ∧
    (∃ ctx w p1,
      crossCfg1.forward unitQuery (some unitQuery) (some unitQuery) none
          (some Past.empty) false true none = .ok (ctx, w, some p1) ∧
      ∃ r2, crossCfg1.forward unitQuery none none none (some p1) false true
          none = .ok r2 ∧ r2.1 = ctx ∧ r2.2.1 = w) :=
  ⟨⟨rfl, rfl, rfl⟩,
    C2_static_kv_reuse crossCfg1 unitQuery unitQuery Past.empty false false
      rfl rfl rfl⟩

/-- C7 (amended): for self-attention with a populated cache entry and
`static_kv = false`, a (successful) call appends the newly projected
keys/values onto the stored tensors along the sequence axis, growing the
cached length by exactly the query length (for self-attention the new
projections come from the query), and extends the stored key-padding mask
the same way: concatenation when both masks are present, zero ("not
padding") filler when exactly one is absent, `None` when both are absent.
(For cross-attention with `static_kv = false` the cache instead grows by
the `key` argument's length; see the counterexample.) -/
theorem C7_cache_append (cfg : SelfAttention) (query : Tensor3 ℝ)
    (key value : Option (Tensor3 ℝ)) (kpm : Option KPM) (p : Past)
    (K4 V4 : Tensor4 ℝ) (pm pm' : Option KPM) (nw : Bool)
    (henc : cfg.encoder_decoder_attention = false)
    (hq2 : query.d2 = cfg.embed_dim)
    (hget : p.get cfg.attn_key = ⟨some K4, some V4, pm⟩)
    (hV : V4.d3 = cfg.head_dim)
    (hcat : SelfAttention.catPrevKeyPaddingMask kpm pm query.d1
      (K4.d2 + query.d0) false = .ok pm')
    (hpm' : pm' = none ∨ ∃ mm, pm' = some (.mat mm) ∧ mm.d0 = query.d1 ∧
      mm.d1 = K4.d2 + query.d0) :
    (∃ out w, cfg.forward query key value kpm (some p) nw false none =
      .ok (out, w, some (p.set cfg.attn_key
        ⟨some (view4 (cat1 (view3of4 K4)
            (cfg.shapeT (cfg.k_proj.apply query) query.d1))
            query.d1 cfg.num_heads),
          some (view4 (cat1 (view3of4 V4)
            (cfg.shapeT (cfg.v_proj.apply query) query.d1))
            query.d1 cfg.num_heads), pm'⟩))) ∧
    (view4 (cat1 (view3of4 K4)
      (cfg.shapeT (cfg.k_proj.apply query) query.d1)) query.d1
      cfg.num_heads).d2 = K4.d2 + query.d0 ∧
    (view4 (cat1 (view3of4 V4)
      (cfg.shapeT (cfg.v_proj.apply query) query.d1)) query.d1
      cfg.num_heads).d2 = V4.d2 + query.d0 ∧
    (∀ a b2, pm = some (.mat a) → kpm = some (.mat b2) →
      pm' = some (.mat (cat2 a b2))) ∧
    (∀ a, pm = some (.mat a) → kpm = none →
      pm' = some (.mat (cat2 a
        (zeros2 query.d1 (K4.d2 + query.d0 - a.d1))))) ∧
    (∀ b2, pm = none → kpm = some (.mat b2) →
      pm' = some (.mat (cat2
        (zeros2 query.d1 (K4.d2 + query.d0 - b2.d1)) b2))) ∧
    (pm = none → kpm = none → pm' = none) := by
  refine ⟨⟨_, _, forward_cached_self_run cfg query key value kpm p K4 V4 pm
      pm' nw henc hq2 hget hV hcat hpm'⟩, rfl, rfl, ?_, ?_, ?_, ?_⟩
  · intro a b2 h1 h2
    subst h1; subst h2
    simpa [SelfAttention.catPrevKeyPaddingMask] using hcat.symm
  · intro a h1 h2
    subst h1; subst h2
    simpa [SelfAttention.catPrevKeyPaddingMask] using hcat.symm
  · intro b2 h1 h2
    subst h1; subst h2
    simpa [SelfAttention.catPrevKeyPaddingMask] using hcat.symm
  · intro h1 h2
    subst h1; subst h2
    simpa [SelfAttention.catPrevKeyPaddingMask] using hcat.symm

/-- A populated self-attention cache entry of cached length 1 (1 head,
head_dim 1), for the C7 witness. -/
noncomputable def c7prevK4 : Tensor4 ℝ := ⟨1, 1, 1, 1, fun _ _ _ _ => 0⟩

/-- A cache dict holding that self-attention entry. -/
noncomputable def c7past : Past :=
  Past.empty.set "self_attn" ⟨some c7prevK4, some c7prevK4, none⟩

/-- C7 witness: the concrete populated self-attention cache call above
(no masks anywhere, so the extended mask stays `None`). -/
theorem C7_cache_append_witness :
    (selfCfg1.encoder_decoder_attention = false ∧
      unitQuery.d2 = selfCfg1.embed_dim ∧
      c7past.get selfCfg1.attn_key = ⟨some c7prevK4, some c7prevK4, none⟩ ∧
      c7prevK4.d3 = selfCfg1.head_dim ∧
      SelfAttention.catPrevKeyPaddingMask none none unitQuery.d1
        (c7prevK4.d2 + unitQuery.d0) false = .ok none) ∧
    (∃ out w, selfCfg1.forward unitQuery none none none (some c7past) false
        false none =
      .ok (out, w, some (c7past.set selfCfg1.attn_key
        ⟨some (view4 (cat1 (view3of4 c7prevK4)
            (selfCfg1.shapeT (selfCfg1.k_proj.apply unitQuery) unitQuery.d1))
            unitQuery.d1 selfCfg1.num_heads),
          some (view4 (cat1 (view3of4 c7prevK4)
            (selfCfg1.shapeT (selfCfg1.v_proj.apply unitQuery) unitQuery.d1))
            unitQuery.d1 selfCfg1.num_heads), none⟩))) ∧
    (view4 (cat1 (view3of4 c7prevK4)
      (selfCfg1.shapeT (selfCfg1.k_proj.apply unitQuery) unitQuery.d1))
      unitQuery.d1 selfCfg1.num_heads).d2 = c7prevK4.d2 + unitQuery.d0 :=
  ⟨⟨rfl, rfl, rfl, rfl, rfl⟩,
    ((C7_cache_append selfCfg1 unitQuery none none none c7past c7prevK4
      c7prevK4 none none false rfl rfl rfl rfl rfl (Or.inl rfl)).1),
    ((C7_cache_append selfCfg1 unitQuery none none none c7past c7prevK4
      c7prevK4 none none false rfl rfl rfl rfl rfl (Or.inl rfl)).2.1)⟩

/-- A `[2, 1, 1]` all-zero encoder output (source length 2). -/
noncomputable def enc2 : Tensor3 ℝ := ⟨2, 1, 1, fun _ _ _ => 0⟩

/-- Read the cached key sequence length stored for the cross-attention
site of a successful forward result (junk value 99 otherwise). -/
noncomputable def cachedKeyLen
    (r : Except Err (Tensor3 ℝ × Tensor4 ℝ × Option Past)) : ℕ :=
  match r with
  | .ok x =>
    match x.2.2 with
    | some p2 =>
      match (p2.get "encoder_decoder_attn").prev_key with
      | some K => K.d2
      | none => 99
    | none => 99
  | .error _ => 99

/-- C7 counterexample: a cross-attention call with `static_kv = false` on
a populated cache of length 2, a length-1 query and a length-2 `key`
argument grows the cached sequence length by the key's length (2), not by
the query length (1) — refuting "by exactly the query length of this
call" for every cached non-static call. -/
theorem C7_counterexample :
    cachedKeyLen (crossCfg1.forward unitQuery (some enc2) (some enc2) none
      (some cexPast) false false none) = 2 + enc2.d0 ∧
    cexPrevK4.d2 = 2 ∧ unitQuery.d0 = 1 ∧
    (2 + enc2.d0 : ℕ) ≠ 2 + unitQuery.d0 :=
  ⟨rfl, rfl, rfl, by norm_num [enc2, unitQuery]⟩

/-- `query[i : i+1]` — the length-1 query tensor of decoding step `i`
(the row index of a length-1 tensor is immaterial). -/
noncomputable def sliceRow (t : Tensor3 ℝ) (i : ℕ) : Tensor3 ℝ :=
  ⟨1, t.d1, t.d2, fun _ b e => t.val i b e⟩

/-- The causal additive bias mask: 0 at and below the diagonal, `-inf`
strictly above it. -/
def causalMask (L : ℕ) : Tensor2 XR :=
  ⟨L, L, fun t s => if s ≤ t then .fin 0 else .ninf⟩

/-- Adding a finite zero bias is the identity. -/
@[simp]
theorem XR.add_fin_zero (x : ℝ) :
    XR.add (XR.fin x) (XR.fin 0) = XR.fin x := by
  simp [XR.add]

/-- Value of a linear layer application. -/
@[simp]
theorem Linear.apply_val (l : Linear) (t : Tensor3 ℝ) (a b o : ℕ) :
    (l.apply t).val a b o =
      (∑ i ∈ Finset.range l.inFeatures, l.weight o i * t.val a b i) +
        l.bias o := rfl

/-- First dimension of a linear layer application. -/
@[simp]
theorem Linear.apply_d0 (l : Linear) (t : Tensor3 ℝ) :
    (l.apply t).d0 = t.d0 := rfl

/-- Value of a batched matrix product. -/
@[simp]
theorem bmm_val (a b : Tensor3 ℝ) (i t s : ℕ) :
    (bmm a b).val i t s =
      ∑ d ∈ Finset.range a.d2, a.val i t d * b.val i d s := rfl

/-- Last dimension of a batched matrix product. -/
@[simp]
theorem bmm_d2 (a b : Tensor3 ℝ) : (bmm a b).d2 = b.d2 := rfl

/-- Value of a transposition. -/
@[simp]
theorem transpose12_val {α : Type} (t : Tensor3 α) (i j l : ℕ) :
    (transpose12 t).val i j l = t.val i l j := rfl

/-- Last dimension of a transposition. -/
@[simp]
theorem transpose12_d2 {α : Type} (t : Tensor3 α) :
    (transpose12 t).d2 = t.d1 := rfl

/-- Value of the extended-real injection. -/
@[simp]
theorem toXR_val (t : Tensor3 ℝ) (i j l : ℕ) :
    t.toXR.val i j l = XR.fin (t.val i j l) := rfl

/-- Last dimension of the extended-real injection. -/
@[simp]
theorem toXR_d2 (t : Tensor3 ℝ) : t.toXR.d2 = t.d2 := rfl

/-- Value of the softmax. -/
@[simp]
theorem softmax3_val (t : Tensor3 XR) (i q s : ℕ) :
    (softmax3 t).val i q s =
      XR.expx (t.val i q s) /
        ∑ m ∈ Finset.range t.d2, XR.expx (t.val i q m) := rfl

/-- Last dimension of the softmax. -/
@[simp]
theorem softmax3_d2 (t : Tensor3 XR) : (softmax3 t).d2 = t.d2 := rfl

/-- Value of the additive-bias-mask step. -/
@[simp]
theorem addAttnMask_val (t : Tensor3 XR) (m : Tensor2 XR) (i q s : ℕ) :
    (addAttnMask t m).val i q s = XR.add (t.val i q s) (m.val q s) := rfl

/-- Last dimension of the additive-bias-mask step. -/
@[simp]
theorem addAttnMask_d2 (t : Tensor3 XR) (m : Tensor2 XR) :
    (addAttnMask t m).d2 = t.d2 := rfl

/-- Value of the final reshape. -/
@[simp]
theorem unshapeT_val (cfg : SelfAttention) (t : Tensor3 ℝ)
    (tg bz em a b c : ℕ) :
    (cfg.unshapeT t tg bz em).val a b c =
      t.val (b * cfg.num_heads + c / cfg.head_dim) a (c % cfg.head_dim) := rfl

/-- Head dimension of the shaped query. -/
@[simp]
theorem qProjShaped_d2 (cfg : SelfAttention) (q : Tensor3 ℝ) :
    (qProjShaped cfg q).d2 = cfg.head_dim := rfl

/-- Middle dimension of `_shape` output. -/
@[simp]
theorem shapeT_d1 (cfg : SelfAttention) (t : Tensor3 ℝ) (bsz : ℕ) :
    (cfg.shapeT t bsz).d1 = t.d0 := rfl

/-- A shaped projection of a length-1 slice reads the full tensor's row:
row `i` of the slice call equals row `i` of the full-query call (the
slice's own row index is immaterial). -/
theorem qProjShaped_slice (cfg : SelfAttention) (query : Tensor3 ℝ)
    (i j t d : ℕ) :
    (qProjShaped cfg (sliceRow query i)).val j t d =
      (qProjShaped cfg query).val j i d := rfl

/-- Same fact for the key/value projections under `_shape`. -/
theorem shapeT_apply_slice (cfg : SelfAttention) (l : Linear)
    (query : Tensor3 ℝ) (i j t d : ℕ) :
    (cfg.shapeT (l.apply (sliceRow query i)) (sliceRow query i).d1).val j t d =
      (cfg.shapeT (l.apply query) query.d1).val j i d := rfl

/-- Final-row equality: attention over merged incremental keys/values that
agree with the full-query projections on all in-range positions produces,
at its single query row, the same context entries as the full batched call
at its last row under the causal mask (whose last row allows every
position). -/
theorem attnOut_final_row (cfg : SelfAttention) (query : Tensor3 ℝ)
    (kI vI : Tensor3 ℝ) (n' : ℕ)
    (hn : n' + 1 = query.d0)
    (hkd : kI.d1 = query.d0)
    (hk : ∀ i s d, s < query.d0 → kI.val i s d =
      (cfg.shapeT (cfg.k_proj.apply query) query.d1).val i s d)
    (hv : ∀ i s d, s < query.d0 → vI.val i s d =
      (cfg.shapeT (cfg.v_proj.apply query) query.d1).val i s d)
    (b e : ℕ) :
    (attnOut cfg (sliceRow query n')
      (bmm (qProjShaped cfg (sliceRow query n')) (transpose12 kI)).toXR
      vI).1.val 0 b e =
    (attnOut cfg query
      (applyAM (bmm (qProjShaped cfg query)
        (transpose12 (cfg.shapeT (cfg.k_proj.apply query) query.d1))).toXR
        (some (causalMask query.d0)))
      (cfg.shapeT (cfg.v_proj.apply query) query.d1)).1.val n' b e := by
  have hX : ∀ j m, m < query.d0 →
      (XR.fin (∑ d ∈ Finset.range cfg.head_dim,
        (qProjShaped cfg query).val j n' d * kI.val j m d)) =
      XR.add (XR.fin (∑ d ∈ Finset.range cfg.head_dim,
        (qProjShaped cfg query).val j n' d *
          (cfg.shapeT (cfg.k_proj.apply query) query.d1).val j m d))
        (if m ≤ n' then XR.fin 0 else XR.ninf) := by
    intro j m hm
    have hmle : m ≤ n' := by omega
    rw [if_pos hmle, XR.add_fin_zero]
    exact congrArg XR.fin
      (Finset.sum_congr rfl fun d _ => by rw [hk j m d hm])
  simp only [attnOut, dropoutEval, applyAM, Linear.apply_val, Linear.apply_d0,
    unshapeT_val, bmm_val, bmm_d2, softmax3_val, softmax3_d2, toXR_val,
    toXR_d2, transpose12_val, transpose12_d2, addAttnMask_val, addAttnMask_d2,
    qProjShaped_d2, shapeT_d1, qProjShaped_slice, causalMask, hkd]
  congr 1
  refine Finset.sum_congr rfl fun i2 _ => ?_
  congr 1
  refine Finset.sum_congr rfl fun s hs => ?_
  rw [Finset.mem_range] at hs
  rw [hv _ s _ hs, hX _ s hs]
  have hden :
      (∑ m ∈ Finset.range query.d0,
        XR.expx (XR.fin (∑ d ∈ Finset.range cfg.head_dim,
          (qProjShaped cfg query).val (b * cfg.num_heads + i2 / cfg.head_dim)
            n' d *
          kI.val (b * cfg.num_heads + i2 / cfg.head_dim) m d))) =
      ∑ m ∈ Finset.range query.d0,
        XR.expx (XR.add (XR.fin (∑ d ∈ Finset.range cfg.head_dim,
          (qProjShaped cfg query).val (b * cfg.num_heads + i2 / cfg.head_dim)
            n' d *
          (cfg.shapeT (cfg.k_proj.apply query) query.d1).val
            (b * cfg.num_heads + i2 / cfg.head_dim) m d))
          (if m ≤ n' then XR.fin 0 else XR.ninf)) :=
    Finset.sum_congr rfl fun m hm => by
      rw [hX _ m (Finset.mem_range.mp hm)]
  rw [hden]

/-- The incremental decoding loop of the equivalence scenario: step `i`
feeds `query[i : i+1]` to `forward` with the cache returned by step
`i - 1` (step 0 starts from an empty cache dict). -/
noncomputable def decodeSteps (cfg : SelfAttention) (query : Tensor3 ℝ) :
    ℕ → Except Err (Tensor3 ℝ × Tensor4 ℝ × Option Past)
  | 0 =>
    cfg.forward (sliceRow query 0) (some (sliceRow query 0))
      (some (sliceRow query 0)) none (some Past.empty) false false none
  | n + 1 =>
    (decodeSteps cfg query n).bind fun r =>
      cfg.forward (sliceRow query (n + 1)) (some (sliceRow query (n + 1)))
        (some (sliceRow query (n + 1))) none r.2.2 false false none

/-- Row-wise dimensions and values of a length-1 slice. -/
@[simp]
theorem sliceRow_d0 (t : Tensor3 ℝ) (i : ℕ) : (sliceRow t i).d0 = 1 := rfl

/-- Batch dimension of a length-1 slice. -/
@[simp]
theorem sliceRow_d1 (t : Tensor3 ℝ) (i : ℕ) : (sliceRow t i).d1 = t.d1 := rfl

/-- Feature dimension of a length-1 slice. -/
@[simp]
theorem sliceRow_d2 (t : Tensor3 ℝ) (i : ℕ) : (sliceRow t i).d2 = t.d2 := rfl

/-- Value of a length-1 slice (its own row index is immaterial). -/
@[simp]
theorem sliceRow_val (t : Tensor3 ℝ) (i a b e : ℕ) :
    (sliceRow t i).val a b e = t.val i b e := rfl

/-- Invariant of the incremental loop: after step `n` the cache holds the
head-shaped key/value projections of query rows `0..n`, and the step's
context is the attention of row `n` over them. -/
theorem decodeSteps_spec (cfg : SelfAttention) (query : Tensor3 ℝ)
    (henc : cfg.encoder_decoder_attention = false)
    (hq2 : query.d2 = cfg.embed_dim) :
    ∀ n, ∃ out w p kn vn,
      decodeSteps cfg query n = .ok (out, w, some p) ∧
      p.get cfg.attn_key =
        ⟨some (view4 kn query.d1 cfg.num_heads),
          some (view4 vn query.d1 cfg.num_heads), none⟩ ∧
      kn.d0 = query.d1 * cfg.num_heads ∧ vn.d0 = query.d1 * cfg.num_heads ∧
      kn.d1 = n + 1 ∧ vn.d1 = n + 1 ∧
      kn.d2 = cfg.head_dim ∧ vn.d2 = cfg.head_dim ∧
      (∀ i s d, s < n + 1 → kn.val i s d =
        (cfg.shapeT (cfg.k_proj.apply query) query.d1).val i s d) ∧
      (∀ i s d, s < n + 1 → vn.val i s d =
        (cfg.shapeT (cfg.v_proj.apply query) query.d1).val i s d) ∧
      out = (attnOut cfg (sliceRow query n)
        (bmm (qProjShaped cfg (sliceRow query n)) (transpose12 kn)).toXR
        vn).1 := by
  intro n
  induction n with
  | zero =>
    have h0 := forward_first_self cfg (sliceRow query 0)
      (some (sliceRow query 0)) (some (sliceRow query 0)) Past.empty false
      henc hq2 rfl
    refine ⟨_, _, Past.empty.set cfg.attn_key
      ⟨some (view4 (cfg.shapeT (cfg.k_proj.apply (sliceRow query 0))
          (sliceRow query 0).d1) (sliceRow query 0).d1 cfg.num_heads),
        some (view4 (cfg.shapeT (cfg.v_proj.apply (sliceRow query 0))
          (sliceRow query 0).d1) (sliceRow query 0).d1 cfg.num_heads),
        none⟩,
      cfg.shapeT (cfg.k_proj.apply (sliceRow query 0)) (sliceRow query 0).d1,
      cfg.shapeT (cfg.v_proj.apply (sliceRow query 0)) (sliceRow query 0).d1,
      h0, Past.get_set _ _ _, rfl, rfl, rfl, rfl, rfl, rfl, ?_, ?_, rfl⟩
    · intro i s d hs
      have hs0 : s = 0 := by omega
      subst hs0
      exact shapeT_apply_slice cfg cfg.k_proj query 0 i 0 d
    · intro i s d hs
      have hs0 : s = 0 := by omega
      subst hs0
      exact shapeT_apply_slice cfg cfg.v_proj query 0 i 0 d
  | succ n ih =>
    obtain ⟨out, w, p, kn, vn, hrun, hget, hk0, hv0, hk1, hv1, hk2, hv2,
      hkval, hvval, -⟩ := ih
    have hroundK : view3of4 (view4 kn query.d1 cfg.num_heads) = kn :=
      view3of4_view4 kn query.d1 cfg.num_heads hk0
    have hroundV : view3of4 (view4 vn query.d1 cfg.num_heads) = vn :=
      view3of4_view4 vn query.d1 cfg.num_heads hv0
    have hstep := forward_cached_self cfg (sliceRow query (n + 1))
      (some (sliceRow query (n + 1))) (some (sliceRow query (n + 1))) p
      (view4 kn query.d1 cfg.num_heads) (view4 vn query.d1 cfg.num_heads)
      false henc hq2 hget (by show vn.d2 = cfg.head_dim; exact hv2)
    rw [hroundK, hroundV] at hstep
    have hrun2 : decodeSteps cfg query (n + 1) =
        cfg.forward (sliceRow query (n + 1)) (some (sliceRow query (n + 1)))
          (some (sliceRow query (n + 1))) none (some p) false false none := by
      unfold decodeSteps
      rw [hrun]
      rfl
    have hfull := hrun2.trans hstep
    refine ⟨_, _, _, _, _, hfull, Past.get_set _ _ _, hk0, hv0, ?_, ?_,
      hk2, hv2, ?_, ?_, rfl⟩
    · show kn.d1 + 1 = n + 1 + 1
      rw [hk1]
    · show vn.d1 + 1 = n + 1 + 1
      rw [hv1]
    · intro i s d hs
      show (if s < kn.d1 then kn.val i s d else _) = _
      rcases Nat.lt_or_ge s (n + 1) with hlt | hge
      · rw [if_pos (by omega), hkval i s d hlt]
      · have hseq : s = n + 1 := by omega
        subst hseq
        rw [if_neg (by omega), hk1]
        have hz : n + 1 - (n + 1) = 0 := by omega
        rw [hz]
        exact shapeT_apply_slice cfg cfg.k_proj query (n + 1) i 0 d
    · intro i s d hs
      show (if s < vn.d1 then vn.val i s d else _) = _
      rcases Nat.lt_or_ge s (n + 1) with hlt | hge
      · rw [if_pos (by omega), hvval i s d hlt]
      · have hseq : s = n + 1 := by omega
        subst hseq
        rw [if_neg (by omega), hv1]
        have hz : n + 1 - (n + 1) = 0 := by omega
        rw [hz]
        exact shapeT_apply_slice cfg cfg.v_proj query (n + 1) i 0 d

/-- C1: incremental-decoding equivalence for self-attention.  Running
`forward` once on the full length-`L` query with no cache and a causal
bias mask produces the same context vector at the final position as
running `forward` `L` times on length-1 queries with a cache that
accumulates keys/values step by step (identical weights, no dropout). -/
theorem C1_incremental_equiv (cfg : SelfAttention) (query : Tensor3 ℝ)
    (L : ℕ) (key value : Option (Tensor3 ℝ)) (nw : Bool)
    (henc : cfg.encoder_decoder_attention = false)
    (hq2 : query.d2 = cfg.embed_dim)
    (hL : query.d0 = L) (hpos : 0 < L) :
    ∃ rFull rInc,
      cfg.forward query key value none none nw false
        (some (causalMask L)) = .ok rFull ∧
      decodeSteps cfg query (L - 1) = .ok rInc ∧
      ∀ b e, rFull.1.val (L - 1) b e = rInc.1.val 0 b e := by
  subst hL
  obtain ⟨n', hn⟩ : ∃ n', n' + 1 = query.d0 := ⟨query.d0 - 1, by omega⟩
  obtain ⟨out, w, p, kn, vn, hrun, hget, hk0, hv0, hk1, hv1, hk2, hv2,
    hkval, hvval, hout⟩ := decodeSteps_spec cfg query henc hq2 n'
  have hL1 : query.d0 - 1 = n' := by omega
  refine ⟨_, (out, w, some p), forward_nopast_self cfg query key value nw
    (some (causalMask query.d0)) henc hq2, ?_, ?_⟩
  · rw [hL1]
    exact hrun
  · intro b e
    rw [hL1]
    subst hout
    exact (attnOut_final_row cfg query kn vn n' hn
      (by rw [hk1, hn])
      (fun i s d hs => hkval i s d (by omega))
      (fun i s d hs => hvval i s d (by omega)) b e).symm

/-- C1 witness: the concrete length-2 scenario (1 head, 1-dim embeddings,
zero weights): full causal-masked call versus two incremental steps. -/
theorem C1_incremental_equiv_witness :
    (selfCfg1.encoder_decoder_attention = false ∧
      query2.d2 = selfCfg1.embed_dim ∧ query2.d0 = 2 ∧ 0 < 2) ∧
    (∃ rFull rInc,
      selfCfg1.forward query2 (some query2) (some query2) none none false
        false (some (causalMask 2)) = .ok rFull ∧
      decodeSteps selfCfg1 query2 (2 - 1) = .ok rInc ∧
      ∀ b e, rFull.1.val (2 - 1) b e = rInc.1.val 0 b e) :=
  ⟨⟨rfl, rfl, rfl, by omega⟩,
    C1_incremental_equiv selfCfg1 query2 2 (some query2) (some query2) false
      rfl rfl rfl (by omega)⟩

end SmartTransformers
